import Mathlib

/-!
Verification of the text-to-category classification pipeline of the
streamlit-maps repository (noise-complaint analysis for Maringá).

The Lean definitions below are a shallow embedding of the Python sources:

* `NLP_Tokenization.py` — URL regex, stopword set, `_clean_tokens`;
* `NLP_Classification_modalidade.py` — keyword dictionaries,
  `_match_categories`, `_select_best`, `_extract_time_windows`,
  `build_cluster_model`, and the per-record orchestration in `main`;
* `pages/4_NLP_Filtros_&_Histogramas.py` — `_match_rule`, `apply_custom_rules`;
* `pages/3_📍_Machine_Learning.py` — the OPTICS / K-Means guard logic.

Machine-learning library calls (spaCy lemmatization, scikit-learn K-Means and
OPTICS fits) are external collaborators; they enter the embedding as explicit
parameters (a lemma field on tokens, a label-producing function, a label
vector), while every piece of decision logic written in the repository itself
is translated faithfully.
-/

/-! ### Python string primitives -/

/-- Whitespace characters stripped by Python's `str.strip()` (ASCII range). -/
def isPyWhitespace (c : Char) : Bool :=
  c = ' ' || c = '\t' || c = '\n' || c = '\r' || c = '\x0b' || c = '\x0c'

/-- Python `str.strip()`: drop leading and trailing whitespace. -/
def pyStrip (s : String) : String :=
  String.mk (((s.toList.dropWhile isPyWhitespace).reverse.dropWhile isPyWhitespace).reverse)

/-- Python `str.lower()` on one character, covering ASCII `A`-`Z` and the
Latin-1 uppercase letters `À`-`Þ` (excluding the multiplication sign). -/
def pyLowerChar (c : Char) : Char :=
  if 'A' ≤ c ∧ c ≤ 'Z' then Char.ofNat (c.toNat + 32)
  else if 'À' ≤ c ∧ c ≤ 'Þ' ∧ c ≠ '×' then Char.ofNat (c.toNat + 32)
  else c

/-- Python `str.lower()`. -/
def pyLower (s : String) : String :=
  String.mk (s.toList.map pyLowerChar)

/-! ### URL_REGEX (NLP_Tokenization.py line 21)

The source compiles the RAW string `r"https?://\\S+|www\\.\\S+"` with
`re.IGNORECASE`.  Inside a raw string `\\` stays two characters, so the regex
engine reads `\\` as an escaped (literal) backslash and `S+` as one or more
literal letters `S` (case-insensitive, hence `s` or `S`).  The two
alternatives therefore match
`http(s)://` + backslash + a run of `s`/`S`, and
`www` + backslash + any non-newline character + backslash + a run of `s`/`S`.
The embedding reproduces exactly that semantics. -/

/-- Case-insensitive literal character match (re.IGNORECASE). -/
def ciChar (p c : Char) : Bool := pyLowerChar c = pyLowerChar p

/-- Consume the literal pattern `ps` case-insensitively from the front of
`cs`, returning the remainder on success. -/
def stripCI : List Char → List Char → Option (List Char)
  | [], cs => some cs
  | _ :: _, [] => none
  | p :: ps, c :: cs => if ciChar p c then stripCI ps cs else none

/-- Length of the maximal leading run of `s`/`S` (the greedy `S+` under
IGNORECASE). -/
def sRun : List Char → Nat
  | [] => 0
  | c :: rest => if c = 's' || c = 'S' then sRun rest + 1 else 0

/-- Match the regex tail `\\S+`: a literal backslash followed by at least one
`s`/`S`; returns the number of characters consumed. -/
def tailBackslashS (cs : List Char) : Option Nat :=
  match cs with
  | '\\' :: rest =>
    let n := sRun rest
    if n = 0 then none else some (n + 1)
  | _ => none

/-- First regex alternative `https?://\\S+` at the head of `cs` (greedy `s?`
is tried first); returns the match length. -/
def matchAlt1 (cs : List Char) : Option Nat :=
  match stripCI "https://".toList cs with
  | some rest => (tailBackslashS rest).map (fun n => 8 + n)
  | none =>
    match stripCI "http://".toList cs with
    | some rest => (tailBackslashS rest).map (fun n => 7 + n)
    | none => none

/-- Second regex alternative `www\\.\\S+` at the head of `cs`; the `.` matches
any character except a newline. -/
def matchAlt2 (cs : List Char) : Option Nat :=
  match stripCI "www".toList cs with
  | some ('\\' :: c :: '\\' :: rest) =>
    if c = '\n' then none
    else
      let n := sRun rest
      if n = 0 then none else some (6 + n)
  | _ => none

/-- Length of the URL_REGEX match starting exactly at the head of `cs`
(alternation tries the first branch first, as Python's `re` does). -/
def matchLenAt (cs : List Char) : Option Nat :=
  match matchAlt1 cs with
  | some n => some n
  | none => matchAlt2 cs

/-- `URL_REGEX.search`: does any position of the string start a match? -/
def urlSearchAux : List Char → Bool
  | [] => false
  | c :: rest => (matchLenAt (c :: rest)).isSome || urlSearchAux rest

/-- `URL_REGEX.search(s)` as a Boolean. -/
def urlSearch (s : String) : Bool := urlSearchAux s.toList

/-- `URL_REGEX.sub(" ", s)` core loop: scan left to right, replace each
(leftmost, greedy) match by one space and continue after it.  The fuel is the
remaining length; every match consumes at least one character, so
`cs.length` fuel is always sufficient. -/
def urlSubAux : Nat → List Char → List Char
  | 0, cs => cs
  | _ + 1, [] => []
  | fuel + 1, c :: rest =>
    match matchLenAt (c :: rest) with
    | some n => ' ' :: urlSubAux fuel (List.drop (n - 1) rest)
    | none => c :: urlSubAux fuel rest

/-- `URL_REGEX.sub(" ", s)`. -/
def urlSub (s : String) : String :=
  String.mk (urlSubAux s.toList.length s.toList)

/-- `process_geojson` line 127: `URL_REGEX.sub(" ", str(descricao)).lower()`. -/
def preprocessDescription (descricao : String) : String :=
  pyLower (urlSub descricao)

/-! ### Tokenizer (NLP_Tokenization.py) -/

/-- A spaCy token as consumed by `_clean_tokens`: its surface text, the lemma
proposed by the (external) language model, and the three flags the code
reads. -/
structure SpacyToken where
  text : String
  lemma_ : String
  is_space : Bool
  is_punct : Bool
  like_num : Bool
deriving DecidableEq

/-- `IR_FORMS` (line 23): conjugated forms of "ir" collapsed to one lemma. -/
def IR_FORMS : Finset String := {"vou", "vais", "vai", "vamos", "ides", "vão"}

/-- The `extras` literal of `_ensure_stopwords` (lines 34-82). -/
def STOP_EXTRAS : Finset String :=
  {"\x27", "pra", "eh", "vcs", "lá", "né", "q", "o", "tá", "co", "t", "s",
   "rt", "pq", "ta", "tô", "ihh", "ih", "otc", "vc", "barulho", "https",
   "n", "qdo", "hj", "tb", "dia", "noite", "madrugada", "todo", "durante",
   "pois", "vez", "outro", "poder", "ficar", "fazer", "solicitar", "pedido",
   "pedir", "reclamar", "reclamação", "prefeitura", "protocolo", "urgente",
   "providência", "providencia"}

/-- `_ensure_stopwords`: the NLTK Portuguese stopword list (an external
resource, here a parameter) lowercased and united with the extras. -/
def ensure_stopwords (base : List String) : Finset String :=
  (base.map pyLower).toFinset ∪ STOP_EXTRAS

/-- Character class of `ALPHA_REGEX` = `[a-zà-ú]` under IGNORECASE: ASCII
letters and the Latin-1 block `à`-`ú`, plus their uppercase variants. -/
def isAlphaClassChar (c : Char) : Bool :=
  ('a' ≤ c && c ≤ 'z') || ('à' ≤ c && c ≤ 'ú') ||
  ('A' ≤ c && c ≤ 'Z') || ('À' ≤ c && c ≤ 'Ú')

/-- `ALPHA_REGEX.search`: the string contains at least two consecutive
characters of the class (`{2,}`). -/
def alphaSearch (s : String) : Bool :=
  (s.toList.zip s.toList.tail).any (fun p => isAlphaClassChar p.1 && isAlphaClassChar p.2)

/-- The `continue` guards of the `_clean_tokens` loop body (lines 90-100),
conjoined: the raw surface form is non-empty, not a stopword, the token is
not space/punctuation/number-like, the raw form has no digit, no URL-regex
match, and it matches the minimum-length alphabetic pattern. -/
def passesFilters (stopwords : Finset String) (tok : SpacyToken) : Bool :=
  let raw := pyLower (pyStrip tok.text)
  !(raw == "" || decide (raw ∈ stopwords)) &&
  !(tok.is_space || tok.is_punct || tok.like_num) &&
  !(raw.toList.any Char.isDigit) &&
  !(urlSearch raw) &&
  alphaSearch raw

/-- Lines 102-103 of `_clean_tokens`: the emitted lemma — the spaCy lemma,
stripped and lowered, falling back to the raw form when empty, with the
"ir" conjugations collapsed. -/
def tokenLemma (tok : SpacyToken) : String :=
  let raw := pyLower (pyStrip tok.text)
  let lemma0 := pyLower (pyStrip tok.lemma_)
  let lemma1 := if lemma0 = "" then raw else lemma0
  if lemma1 ∈ IR_FORMS then "ir" else lemma1

/-- One iteration of the `_clean_tokens` loop body: `none` when the token is
skipped by a `continue` (a failed filter, or a lemma in the stopword set),
`some lemma` when a lemma is appended. -/
def keepToken (stopwords : Finset String) (tok : SpacyToken) : Option String :=
  if passesFilters stopwords tok then
    if tokenLemma tok ∈ stopwords then none else some (tokenLemma tok)
  else none

/-- `_clean_tokens(doc, stopwords)`: the surviving lemmas in order. -/
def cleanTokens (doc : List SpacyToken) (stopwords : Finset String) : List String :=
  doc.filterMap (keepToken stopwords)


/-! ### String ordering (Python `sorted` on strings)

Python sorts strings lexicographically by code point.  `Finset.sort` does not
reduce inside the kernel, so Python sets of strings are embedded as
deduplicated lists and sorted with an executable insertion sort; set
operations are membership-based, exactly as in Python. -/

/-- Lexicographic (code-point) comparison of character lists. -/
def charListLe : List Char → List Char → Bool
  | [], _ => true
  | _ :: _, [] => false
  | a :: as, b :: bs => if a = b then charListLe as bs else decide (a < b)

/-- Python `<=` on strings. -/
def pyStrLe (a b : String) : Bool := charListLe a.toList b.toList

/-- Insert into a sorted list of strings. -/
def insertSorted (x : String) : List String → List String
  | [] => [x]
  | y :: ys => if pyStrLe x y then x :: y :: ys else y :: insertSorted x ys

/-- Python `sorted` on a list of strings (insertion sort). -/
def sortStrings (l : List String) : List String := l.foldr insertSorted []

/-! ### Keyword dictionaries (NLP_Classification_modalidade.py lines 38-287)

Python 3.7+ dicts iterate in insertion order, so each dictionary is embedded
as an association list preserving the order in which the source declares the
labels.  Each Python keyword set is transcribed as the literal list of its
elements (set semantics — only membership in it is ever used). -/

/-- `CONTEXT_KEYWORDS`. -/
def CONTEXT_KEYWORDS : List (String × List String) :=
  [("bar_evento",
    ["bar", "bares", "churrasco", "festa", "balada", "residencia",
     "residencial", "comercio", "comércio", "evento", "lanchonete",
     "restaurante", "pub", "boteco", "adega", "cervejaria", "choperia",
     "boate", "lounge", "taproom", "estabelecimento", "pizzaria",
     "cafeteria"]),
   ("igreja_templo",
    ["igreja", "templo", "missa", "culto", "pastor", "louvor", "celebracao",
     "celebração", "evangelico", "evangélico", "paroquia", "paróquia"]),
   ("obra_construcao",
    ["obra", "obras", "construção", "construcao", "construcão", "construir",
     "construtora", "reforma", "reformar", "bairro", "prédio", "predio"]),
   ("industria_servico",
    ["industria", "indústria", "usina", "empresa", "comercio", "comércio",
     "fabrica", "fábrica", "oficina", "serralheria", "metalurgica",
     "metalúrgica"]),
   ("via_publica",
    ["rua", "avenida", "cruzamento", "praça", "rotatória", "semáforo",
     "semáfaro", "pista", "rodovia", "estrada"]),
   ("residencial",
    ["casa", "vizinho", "apartamento", "condominio", "condomínio", "prédio",
     "predio", "sobrado"]),
   ("area_lazer",
    ["quadra", "campo", "ginásio", "ginásio", "parque", "praça", "club",
     "clube"]),
   ("veiculos_transito",
    ["carro", "moto", "motocicleta", "caminhao", "caminhão", "veiculo",
     "veículo", "ônibus", "van", "trio", "caminhonete"])]

/-- `AUDIO_KEYWORDS`. -/
def AUDIO_KEYWORDS : List (String × List String) :=
  [("musica",
    ["musica", "música", "som", "vivo", "banda", "show", "voz", "cantor",
     "cantora", "dj", "palco", "instrumento", "instrumental", "ensaio",
     "acustico", "acústico", "microfone", "teclado", "violão", "violino",
     "percussão", "percussao", "karaoke", "karaokê", "caixa", "caixas",
     "ritmo"]),
   ("maquinario",
    ["maquina", "máquina", "gerador", "compressor", "serra", "martelo",
     "martelar", "martelete", "furadeira", "betoneira", "britadeira",
     "perfurar", "perfuratriz", "trator", "equipamento", "indústria"]),
   ("veiculo",
    ["carro", "moto", "motocicleta", "automotivo", "escapamento", "ronco",
     "motor", "sirene", "acelerar", "buzina", "caminhao", "caminhão",
     "ônibus", "van", "trio"]),
   ("alarme",
    ["alarme", "disparo", "disparar", "sirene", "sensor", "bip",
     "estacionamento", "garagem", "entrada", "saida", "saída", "portaria",
     "vigia", "monitoramento"]),
   ("animal",
    ["cachorro", "cao", "cão", "latido", "latir", "galo", "galinha",
     "papagaio", "animal"]),
   ("fogos",
    ["fogos", "artificio", "artifício", "estouro", "rojão", "rojões",
     "pirotecnia", "foguete"]),
   ("vozes_aglomeracao",
    ["falar", "grito", "gritar", "aplausos", "torcida", "multidão",
     "pessoas", "cliente", "frequente", "risada", "aglomeração",
     "aglomeraçao", "bate-papo", "palmas"])]

/-- `TIME_KEYWORDS`. -/
def TIME_KEYWORDS : List (String × List String) :=
  [("manha", ["manhã", "manha", "7h", "6h", "8h", "9h"]),
   ("tarde", ["tarde", "15h", "16h", "17h"]),
   ("noite", ["noite", "19h", "20h", "21h", "22h", "23h"]),
   ("madrugada", ["madrugada", "00h", "01h", "02h", "03h", "04h", "05h"]),
   ("fim_de_semana", ["sábado", "sabado", "domingo", "feriado"])]

/-! ### Keyword Category Matcher and Time-Window Inferencer -/

/-- `MatchResult` dataclass (lines 290-294); the sorted tuple of matched
terms is a sorted list here. -/
structure MatchResult where
  label : Option String
  score : Nat
  matched_terms : List String
deriving DecidableEq

/-- The deduplicated, case-folded token set
`{str(tok).lower() for tok in tokens if tok}` shared by `_match_categories`
and `_extract_time_windows`. -/
def tokenSet (tokens : List String) : List String :=
  ((tokens.filter (fun t => t != "")).map pyLower).dedup

/-- `token_set.intersection(keywords)`: the distinct common elements, kept in
canonical sorted order (the representative of the Python set). -/
def setInter (tokens : List String) (keywords : List String) : List String :=
  sortStrings ((tokenSet tokens).filter (fun t => t ∈ keywords))

/-- `_match_categories` (lines 309-318): the labels whose keyword set meets
the token set, each with its overlap, in dictionary order. -/
def match_categories (tokens : List String) (categories : List (String × List String)) :
    List (String × List String) :=
  categories.filterMap fun p =>
    let overlap := setInter tokens p.2
    if overlap = [] then none else some (p.1, overlap)

/-- The loop of `_select_best` (lines 321-331): keep the first entry whose
score (`len(tokens)`, the number of distinct matched keywords) strictly
exceeds the best so far; `tuple(sorted(tokens))` becomes `sortStrings`. -/
def select_best_aux : MatchResult → List (String × List String) → MatchResult
  | best, [] => best
  | best, (label, toks) :: rest =>
    if best.score < toks.length then
      select_best_aux ⟨some label, toks.length, sortStrings toks⟩ rest
    else
      select_best_aux best rest

/-- `_select_best(matches)`. -/
def select_best (ms : List (String × List String)) : MatchResult :=
  select_best_aux ⟨none, 0, []⟩ ms

/-- `_extract_time_windows` (lines 334-340). -/
def extract_time_windows (tokens : List String) : List String :=
  TIME_KEYWORDS.filterMap fun p =>
    if setInter tokens p.2 = [] then none else some p.1

/-! ### Rule Classifier orchestration (`main`, lines 386-412) -/

/-- Python truthiness fallback `opt or default` for an optional string:
`None` and the empty string both fall back. -/
def pyOrStr (o : Option String) (default : String) : String :=
  match o with
  | some s => if s = "" then default else s
  | none => default

/-- The token normalization at line 391:
`[str(tok).lower() for tok in tokens if tok]`. -/
def normalizeTokens (tokens : List String) : List String :=
  (tokens.filter (fun t => t != "")).map pyLower

/-- The derived properties written onto one record by the loop body of
`main` (lines 386-412). -/
structure ClassifiedProps where
  tipo : String
  contexto : String
  contexto_score : Nat
  contexto_termos : List String
  modalidade : String
  modalidade_score : Nat
  modalidade_termos : List String
  horario : List String
deriving DecidableEq

/-- One iteration of the classification loop in `main`: context and modality
matching, time-window inference, and the `Tipo de Fonte Modalidade` label
taken from the modality result with the `"indefinido"` fallback. -/
def classifyRecord (rawTokens : List String) : ClassifiedProps :=
  let tokens := normalizeTokens rawTokens
  let context_result := select_best (match_categories tokens CONTEXT_KEYWORDS)
  let audio_result := select_best (match_categories tokens AUDIO_KEYWORDS)
  let windows := extract_time_windows tokens
  { tipo := pyOrStr audio_result.label "indefinido"
    contexto := pyOrStr context_result.label ""
    contexto_score := context_result.score
    contexto_termos := context_result.matched_terms
    modalidade := pyOrStr audio_result.label ""
    modalidade_score := audio_result.score
    modalidade_termos := audio_result.matched_terms
    horario := windows }

/-! ### Text Cluster Engine (`build_cluster_model`, lines 343-362) -/

/-- `DEFAULT_CLUSTERS` (line 35). -/
def DEFAULT_CLUSTERS : Nat := 6

/-- Observable outcome of `build_cluster_model`: the per-record labels,
whether a `TfidfVectorizer` was fitted (a non-`None` vectorizer returned),
and the `n_clusters` handed to `KMeans` (`none` when the model is `None`). -/
structure ClusterResult where
  labels : List Nat
  vectorizer_fitted : Bool
  fitted_k : Option Nat
deriving DecidableEq

/-- `build_cluster_model(texts)`.  The K-Means fit itself is an external
scikit-learn call, abstracted as the parameter `kmeansFit` mapping the
requested cluster count and the corpus to a label vector; every branch
decision is the source's own. -/
def build_cluster_model (kmeansFit : Nat → List String → List Nat)
    (texts : List String) : ClusterResult :=
  if texts = [] then ⟨[], false, none⟩
  else if texts.all (fun t => pyStrip t == "") then
    ⟨List.replicate texts.length 0, false, none⟩
  else
    let n := min DEFAULT_CLUSTERS (max 1 texts.length)
    if n = 1 then ⟨List.replicate texts.length 0, true, none⟩
    else ⟨kmeansFit n texts, true, some n⟩

/-- A stand-in K-Means labelling used to instantiate closed statements; the
branch structure of `build_cluster_model` never depends on it. -/
def kmStub : Nat → List String → List Nat := fun _ ts => List.replicate ts.length 0

/-- The cluster-count formula claimed by the specification, `min(k, max(1,
number of NON-EMPTY documents))` — written from the spec's words so it can be
compared with the source's `min(k, max(1, len(texts)))`. -/
def specEffectiveK (k : Nat) (texts : List String) : Nat :=
  min k (max 1 (texts.filter (fun t => pyStrip t != "")).length)

/-! ### User-Defined Rule Engine (pages/4_NLP_Filtros_&_Histogramas.py) -/

/-- The fields of a dataframe row read by `_match_rule`. -/
structure Row where
  fonte_contexto : String
  fonte_audio : String
  fonte_horario : List String
  descricao_tokens : List String
deriving DecidableEq

/-- A custom rule as built by the page's form (always carrying its five
keys, so the `if not rule` guard on an empty dict never fires; `rule.get`
of a missing name is modelled by the empty string). -/
structure Rule where
  name : String
  contexts : List String
  audios : List String
  tokens : List String
  times : List String
deriving DecidableEq

/-- `_match_rule(row, rule)` (lines 50-78): list membership for the record's
context and modality, `set(rule_tokens).issubset(set(tokens))` for the token
constraint, non-empty `set(rule_times).intersection(set(horarios))` for the
time constraint. -/
def match_rule (row : Row) (rule : Rule) : Bool :=
  let context := pyStrip row.fonte_contexto
  let audio := pyStrip row.fonte_audio
  let horarios := row.fonte_horario
  let token_set := row.descricao_tokens
  if rule.contexts ≠ [] ∧ context ∉ rule.contexts then false
  else if rule.audios ≠ [] ∧ audio ∉ rule.audios then false
  else if rule.tokens ≠ [] ∧ ¬ (∀ t ∈ rule.tokens, t ∈ token_set) then false
  else if rule.times ≠ [] ∧ (horarios = [] ∨ ¬ ∃ t ∈ rule.times, t ∈ horarios)
    then false
  else true

/-- The `_aggregate` closure of `apply_custom_rules` (lines 94-102): the
names of the matching rules, skipping rules whose name is falsy. -/
def aggregate_row (rules : List Rule) (row : Row) : List String :=
  rules.filterMap fun rule =>
    if rule.name = "" then none
    else if match_rule row rule then some rule.name else none

/-- `apply_custom_rules` per-row action: the `custom_rules` column. -/
def apply_custom_rules (rows : List Row) (rules : List Rule) : List (List String) :=
  rows.map (aggregate_row rules)

/-! ### Spatial Cluster Engine guards (pages/3_📍_Machine_Learning.py) -/

/-- Outcome of the OPTICS → K-Means page flow: the two `st.stop()` guards
(lines 114-116 and 138-143) or a K-Means fit at line 145. -/
inductive SpatialOutcome where
  | allNoise : SpatialOutcome
  | tooFewPoints : SpatialOutcome
  | kmeansFitted : Nat → Nat → SpatialOutcome
deriving DecidableEq

/-- The guard logic between `run_optics` and `run_kmeans`: drop the points
OPTICS labelled `-1`, halt when none remain, halt when fewer remain than the
requested cluster count, otherwise fit K-Means on the survivors.  The OPTICS
fit itself is an external call, so its label vector is the input. -/
def spatial_pipeline (opticsLabels : List Int) (cluster_count : Nat) : SpatialOutcome :=
  let clean := opticsLabels.filter (fun l => l != -1)
  if clean = [] then SpatialOutcome.allNoise
  else if clean.length < cluster_count then SpatialOutcome.tooFewPoints
  else SpatialOutcome.kmeansFitted cluster_count clean.length

/-! ### Claim theorems -/

set_option maxRecDepth 8000 in
/-- Claim C2 (code bug evidence).  The claim says every `http://`-, `https://`-
and `www.`-prefixed URL substring is removed before tokenization.  The
compiled pattern (raw string `r"https?://\\S+|www\\.\\S+"`) only matches text
containing a literal backslash, so on the description
`"Ver http://exemplo.com agora"` the substitution is the identity, the URL is
still present after preprocessing, `URL_REGEX.search` also fails on the URL
token inside `_clean_tokens`, and the URL-derived token survives into the
output token sequence.  The last conjunct shows the embedded regex does match
the backslash form, i.e. it is faithful rather than vacuous. -/
theorem c2_url_regex_bug :
    urlSub "Ver http://exemplo.com agora" = "Ver http://exemplo.com agora" ∧
    preprocessDescription "Ver http://exemplo.com agora" = "ver http://exemplo.com agora" ∧
    urlSearch "http://exemplo.com" = false ∧
    urlSearch "www.exemplo.com" = false ∧
    cleanTokens [⟨"http://exemplo.com", "http://exemplo.com", false, false, false⟩]
        (ensure_stopwords []) = ["http://exemplo.com"] ∧
    urlSearch "http://\\ss" = true ∧
    urlSub "x http://\\ss y" = "x   y" := by
  decide

/-- Claim C9.  On a non-empty corpus whose documents all strip to the empty
string, `build_cluster_model` assigns every record the fallback cluster `0`
and returns neither a fitted vectorizer nor a K-Means model, for any K-Means
behaviour. -/
theorem c9_all_empty_fallback (kmeansFit : Nat → List String → List Nat)
    (texts : List String) (hne : texts ≠ [])
    (hall : texts.all (fun t => pyStrip t == "") = true) :
    build_cluster_model kmeansFit texts =
      ⟨List.replicate texts.length 0, false, none⟩ := by
  unfold build_cluster_model
  rw [if_neg hne, if_pos hall]

/-- Claim C9 witness: the two-document all-whitespace corpus. -/
theorem c9_all_empty_fallback_witness :
    build_cluster_model kmStub ["", "  "] = ⟨[0, 0], false, none⟩ :=
  c9_all_empty_fallback kmStub ["", "  "] (by decide) (by decide)

/-- Claim C1 counterexample.  The claim states that the fitted cluster count
equals `min(6, max(1, number of non-empty documents))`, which for the corpus
`["", "", "banana"]` (two empty documents, one non-empty) would be `1`.  The
source computes `min(DEFAULT_CLUSTERS, max(1, len(texts)))` from the TOTAL
document count, so K-Means is fitted with `n_clusters = 3`. -/
theorem c1_claim_counterexample :
    (build_cluster_model kmStub ["", "", "banana"]).fitted_k = some 3 ∧
    specEffectiveK DEFAULT_CLUSTERS ["", "", "banana"] = 1 ∧
    (build_cluster_model kmStub ["", "", "banana"]).fitted_k ≠
      some (specEffectiveK DEFAULT_CLUSTERS ["", "", "banana"]) := by
  decide

/-- Claim C1 (amended).  For a corpus with at least one non-empty document the
effective cluster count is `min(6, max(1, TOTAL number of documents))`: when
that value exceeds 1, K-Means is fitted with exactly it; when it equals 1
(single-document corpus), K-Means is skipped and every record is assigned
cluster 0. -/
theorem c1_amended_effective_k (kmeansFit : Nat → List String → List Nat)
    (texts : List String)
    (hsome : texts.all (fun t => pyStrip t == "") = false) :
    (1 < min DEFAULT_CLUSTERS (max 1 texts.length) →
      (build_cluster_model kmeansFit texts).fitted_k =
        some (min DEFAULT_CLUSTERS (max 1 texts.length))) ∧
    (min DEFAULT_CLUSTERS (max 1 texts.length) = 1 →
      (build_cluster_model kmeansFit texts).fitted_k = none ∧
      (build_cluster_model kmeansFit texts).labels = List.replicate texts.length 0) := by
  have hne : texts ≠ [] := by
    intro h
    subst h
    simp [List.all_nil] at hsome
  unfold build_cluster_model
  rw [if_neg hne, if_neg (by simp [hsome])]
  constructor
  · intro hlt
    rw [if_neg (by omega)]
  · intro heq
    rw [if_pos heq]
    exact ⟨rfl, rfl⟩

/-- Claim C1 (amended) witness: on the mixed corpus `["", "", "banana"]` the
hypotheses hold and K-Means is fitted with `min(6, max(1, 3)) = 3`. -/
theorem c1_amended_witness :
    (["", "", "banana"] : List String).all (fun t => pyStrip t == "") = false ∧
    (build_cluster_model kmStub ["", "", "banana"]).fitted_k =
      some (min DEFAULT_CLUSTERS (max 1 (["", "", "banana"] : List String).length)) :=
  ⟨by decide, (c1_amended_effective_k kmStub ["", "", "banana"] (by decide)).1 (by decide)⟩

/-- Claim C8.  If the OPTICS pass labels every point as noise (`-1`), the
page halts at the first guard reporting no usable clusters; if some points
survive but fewer than the requested cluster count, it halts at the second
guard, before `run_kmeans` is ever reached. -/
theorem c8_spatial_guards (opticsLabels : List Int) (cluster_count : Nat) :
    ((∀ l ∈ opticsLabels, l = -1) →
      spatial_pipeline opticsLabels cluster_count = SpatialOutcome.allNoise) ∧
    (opticsLabels.filter (fun l => l != -1) ≠ [] →
      (opticsLabels.filter (fun l => l != -1)).length < cluster_count →
      spatial_pipeline opticsLabels cluster_count = SpatialOutcome.tooFewPoints) := by
  constructor
  · intro hall
    have hnil : opticsLabels.filter (fun l => l != -1) = [] := by
      rw [List.filter_eq_nil_iff]
      intro a ha
      simp [hall a ha]
    unfold spatial_pipeline
    rw [if_pos hnil]
  · intro hne hlt
    unfold spatial_pipeline
    rw [if_neg hne, if_pos hlt]

/-- Claim C8 witness: both guards fire on concrete label vectors. -/
theorem c8_spatial_guards_witness :
    spatial_pipeline [-1, -1] 2 = SpatialOutcome.allNoise ∧
    spatial_pipeline [5, -1] 3 = SpatialOutcome.tooFewPoints :=
  ⟨(c8_spatial_guards [-1, -1] 2).1 (by decide),
   (c8_spatial_guards [5, -1] 3).2 (by decide) (by decide)⟩

/-- Claim C3.  A user-defined rule whose four constraint sets are all empty
matches every record (vacuously true), and — provided its name is non-empty,
as the form enforces — that name is appended to the record's matching-rule
list by `apply_custom_rules`. -/
theorem c3_empty_rule_matches (row : Row) (rules : List Rule) (rule : Rule)
    (hmem : rule ∈ rules) (hc : rule.contexts = []) (ha : rule.audios = [])
    (ht : rule.tokens = []) (hw : rule.times = []) (hname : rule.name ≠ "") :
    match_rule row rule = true ∧ rule.name ∈ aggregate_row rules row := by
  have hmatch : match_rule row rule = true := by
    unfold match_rule
    rw [hc, ha, ht, hw]
    simp
  refine ⟨hmatch, ?_⟩
  unfold aggregate_row
  rw [List.mem_filterMap]
  exact ⟨rule, hmem, by simp [hname, hmatch]⟩

/-- Claim C3 witness: the all-empty rule named "tudo" matches a concrete
classified record and lands in its rule list. -/
theorem c3_empty_rule_matches_witness :
    match_rule ⟨"bar_evento", "musica", ["noite"], ["som"]⟩ ⟨"tudo", [], [], [], []⟩ = true ∧
    "tudo" ∈ aggregate_row [⟨"tudo", [], [], [], []⟩] ⟨"bar_evento", "musica", ["noite"], ["som"]⟩ :=
  c3_empty_rule_matches ⟨"bar_evento", "musica", ["noite"], ["som"]⟩
    [⟨"tudo", [], [], [], []⟩] ⟨"tudo", [], [], [], []⟩
    (by decide) rfl rfl rfl rfl (by decide)

/-- Claim C5.  A record matches a rule iff every non-empty constraint set is
satisfied: membership for context and modality, FULL subset for the required
tokens, and non-empty intersection for the required time windows.  The
concrete conjuncts check the spec's two examples: required tokens
`{"som","alto"}` demand a superset, while required windows
`{"noite","madrugada"}` accept a record whose windows are `{"madrugada"}`
alone. -/
theorem c5_rule_semantics :
    (∀ (row : Row) (rule : Rule),
      match_rule row rule = true ↔
        ((rule.contexts = [] ∨ pyStrip row.fonte_contexto ∈ rule.contexts) ∧
         (rule.audios = [] ∨ pyStrip row.fonte_audio ∈ rule.audios) ∧
         (rule.tokens = [] ∨ ∀ t ∈ rule.tokens, t ∈ row.descricao_tokens) ∧
         (rule.times = [] ∨ ∃ t ∈ rule.times, t ∈ row.fonte_horario))) ∧
    match_rule ⟨"", "", [], ["som", "alto", "festa"]⟩ ⟨"r1", [], [], ["som", "alto"], []⟩ = true ∧
    match_rule ⟨"", "", [], ["som", "festa"]⟩ ⟨"r1", [], [], ["som", "alto"], []⟩ = false ∧
    match_rule ⟨"", "", ["madrugada"], []⟩ ⟨"r2", [], [], [], ["noite", "madrugada"]⟩ = true := by
  refine ⟨?_, by decide, by decide, by decide⟩
  intro row rule
  unfold match_rule
  dsimp only
  split_ifs with h1 h2 h3 h4
  · simp only [false_iff]
    tauto
  · simp only [false_iff]
    tauto
  · simp only [false_iff]
    tauto
  · simp only [false_iff]
    obtain ⟨h4a, h4b⟩ := h4
    rcases h4b with h | h
    · intro hcon
      rcases hcon.2.2.2 with he | ⟨t, htm, hth⟩
      · exact h4a he
      · rw [h] at hth
        simp at hth
    · intro hcon
      rcases hcon.2.2.2 with he | hex
      · exact h4a he
      · exact h hex
  · simp only [true_iff]
    refine ⟨by tauto, by tauto, by tauto, ?_⟩
    by_cases he : rule.times = []
    · exact Or.inl he
    · right
      by_cases hh : row.fonte_horario = []
      · exact absurd ⟨he, Or.inl hh⟩ h4
      · have := fun hne => h4 ⟨he, Or.inr hne⟩
        tauto

/-- Claim C6.  The Time-Window Inferencer returns exactly the labels whose
keyword set meets the token set — no exclusivity or scoring — and a token
sequence containing both "22h" and "sábado" yields both the "noite" and the
"fim_de_semana" windows. -/
theorem c6_time_windows :
    (∀ (tokens : List String) (label : String),
      label ∈ extract_time_windows tokens ↔
        ∃ kws, (label, kws) ∈ TIME_KEYWORDS ∧ setInter tokens kws ≠ []) ∧
    extract_time_windows ["22h", "sábado"] = ["noite", "fim_de_semana"] := by
  refine ⟨?_, by decide⟩
  intro tokens label
  unfold extract_time_windows
  rw [List.mem_filterMap]
  constructor
  · rintro ⟨⟨l, kws⟩, hp, hf⟩
    by_cases h : setInter tokens kws = []
    · simp [h] at hf
    · simp only [h, if_false] at hf
      obtain rfl : l = label := by simpa using hf
      exact ⟨kws, hp, h⟩
  · rintro ⟨kws, hmem, hne⟩
    exact ⟨(label, kws), hmem, by simp [hne]⟩

/-- Claim C7.  The Rule Classifier is a total function; the combined source
type is the modality label with the explicit `"indefinido"` fallback (the
context result never enters it), and the empty token sequence produces
empty labels, zero scores, no matched terms and no time windows. -/
theorem c7_classifier_total :
    (∀ rawTokens : List String,
      (classifyRecord rawTokens).tipo =
        pyOrStr (select_best (match_categories (normalizeTokens rawTokens) AUDIO_KEYWORDS)).label
          "indefinido") ∧
    classifyRecord [] = ⟨"indefinido", "", 0, [], "", 0, [], []⟩ :=
  ⟨fun _ => rfl, by decide⟩

/-! ### Helper lemmas for the Keyword Category Matcher (claim C4) -/

/-- The largest intersection size over all categories of a dictionary. -/
def max_overlap (tokens : List String) (cats : List (String × List String)) : Nat :=
  cats.foldr (fun p acc => max (setInter tokens p.2).length acc) 0

/-- `max_overlap` unfolds one dictionary entry at a time. -/
theorem max_overlap_cons (tokens : List String) (c : String × List String)
    (rest : List (String × List String)) :
    max_overlap tokens (c :: rest) =
      max (setInter tokens c.2).length (max_overlap tokens rest) := rfl

/-- Every category's intersection size is bounded by `max_overlap`. -/
theorem overlap_le_max_overlap (tokens : List String) :
    ∀ (cats : List (String × List String)), ∀ c ∈ cats,
      (setInter tokens c.2).length ≤ max_overlap tokens cats := by
  intro cats
  induction cats with
  | nil => intro c hc; simp at hc
  | cons hd rest ih =>
    intro c hc
    rw [max_overlap_cons]
    rcases List.mem_cons.mp hc with rfl | hmem
    · exact Nat.le_max_left _ _
    · exact Nat.le_trans (ih c hmem) (Nat.le_max_right _ _)

/-- Elements of `_match_categories` come from dictionary entries with a
non-empty overlap. -/
theorem mem_match_categories (tokens : List String) (cats : List (String × List String))
    (p : String × List String) (hp : p ∈ match_categories tokens cats) :
    ∃ c ∈ cats, p = (c.1, setInter tokens c.2) ∧ setInter tokens c.2 ≠ [] := by
  simp only [match_categories, List.mem_filterMap] at hp
  obtain ⟨a, ha, hf⟩ := hp
  by_cases hov : setInter tokens a.2 = []
  · rw [if_pos hov] at hf
    exact absurd hf (by simp)
  · rw [if_neg hov] at hf
    exact ⟨a, ha, (Option.some.inj hf).symm, hov⟩

/-- The `_select_best` loop never moves off a best entry at least as large as
everything remaining (strict `>` comparison). -/
theorem select_best_aux_fixed :
    ∀ (ms : List (String × List String)) (best : MatchResult),
      (∀ p ∈ ms, p.2.length ≤ best.score) → select_best_aux best ms = best := by
  intro ms
  induction ms with
  | nil => intro best _; rfl
  | cons p rest ih =>
    intro best h
    obtain ⟨l, toks⟩ := p
    simp only [select_best_aux]
    rw [if_neg (Nat.not_lt.mpr (h (l, toks) (List.mem_cons_self _ _)))]
    exact ih best fun q hq => h q (List.mem_cons_of_mem _ hq)

/-- Main induction: starting from any accumulator whose score is below the
maximal overlap, `_select_best` lands on the FIRST dictionary entry (in
iteration order) attaining the maximal overlap, with that overlap's size as
score and its sorted elements as terms. -/
theorem select_best_aux_first_max (tokens : List String) :
    ∀ (cats : List (String × List String)) (best : MatchResult),
      best.score < max_overlap tokens cats →
      ∃ c, List.find? (fun q => (setInter tokens q.2).length == max_overlap tokens cats) cats
            = some c ∧
        select_best_aux best (match_categories tokens cats) =
          ⟨some c.1, (setInter tokens c.2).length, sortStrings (setInter tokens c.2)⟩ ∧
        (setInter tokens c.2).length = max_overlap tokens cats := by
  intro cats
  induction cats with
  | nil => intro best h; simp [max_overlap] at h
  | cons hd rest ih =>
    intro best h
    by_cases hov : setInter tokens hd.2 = []
    · have hM : max_overlap tokens (hd :: rest) = max_overlap tokens rest := by
        rw [max_overlap_cons, hov]
        simp
      rw [hM] at h ⊢
      have hmc : match_categories tokens (hd :: rest) = match_categories tokens rest := by
        simp only [match_categories, List.filterMap_cons, if_pos hov]
      rw [hmc]
      rw [List.find?_cons_of_neg _ (by simp [hov]; omega)]
      exact ih best h
    · have hmc : match_categories tokens (hd :: rest) =
          (hd.1, setInter tokens hd.2) :: match_categories tokens rest := by
        simp only [match_categories, List.filterMap_cons, if_neg hov]
      by_cases h1 : best.score < (setInter tokens hd.2).length
      · by_cases h2 : max_overlap tokens rest ≤ (setInter tokens hd.2).length
        · have hM : max_overlap tokens (hd :: rest) = (setInter tokens hd.2).length := by
            rw [max_overlap_cons]
            exact Nat.max_eq_left h2
          rw [hM]
          refine ⟨hd, List.find?_cons_of_pos _ (by simp), ?_, rfl⟩
          rw [hmc]
          simp only [select_best_aux]
          rw [if_pos h1]
          refine select_best_aux_fixed _ _ fun p hp => ?_
          obtain ⟨c, hcm, rfl, -⟩ := mem_match_categories tokens rest p hp
          exact Nat.le_trans (overlap_le_max_overlap tokens rest c hcm) h2
        · have hlt : (setInter tokens hd.2).length < max_overlap tokens rest :=
            Nat.not_le.mp h2
          have hM : max_overlap tokens (hd :: rest) = max_overlap tokens rest := by
            rw [max_overlap_cons]
            exact Nat.max_eq_right (Nat.le_of_lt hlt)
          rw [hM]
          obtain ⟨c, hfind, haux, hlen⟩ :=
            ih ⟨some hd.1, (setInter tokens hd.2).length,
                sortStrings (setInter tokens hd.2)⟩ hlt
          refine ⟨c, ?_, ?_, hlen⟩
          · rw [List.find?_cons_of_neg _ (by simp; omega)]
            exact hfind
          · rw [hmc]
            simp only [select_best_aux]
            rw [if_pos h1]
            exact haux
      · have hle : (setInter tokens hd.2).length ≤ best.score := Nat.not_lt.mp h1
        have hlt : best.score < max_overlap tokens rest := by
          rw [max_overlap_cons] at h
          rcases Nat.le_total (max_overlap tokens rest) ((setInter tokens hd.2).length)
            with hc | hc
          · rw [Nat.max_eq_left hc] at h
            omega
          · rw [Nat.max_eq_right hc] at h
            exact h
        have hM : max_overlap tokens (hd :: rest) = max_overlap tokens rest := by
          rw [max_overlap_cons]
          exact Nat.max_eq_right (Nat.le_trans hle (Nat.le_of_lt hlt))
        rw [hM]
        obtain ⟨c, hfind, haux, hlen⟩ := ih best hlt
        refine ⟨c, ?_, ?_, hlen⟩
        · rw [List.find?_cons_of_neg _ (by simp; omega)]
          exact hfind
        · rw [hmc]
          simp only [select_best_aux]
          rw [if_neg h1]
          exact haux

/-- Claim C4.  Whenever some category of the dictionary has a non-empty
intersection with the deduplicated, case-folded token set, the Keyword
Category Matcher (`_select_best` over `_match_categories`) returns the FIRST
category, in the dictionary's defined iteration order, whose intersection
size is maximal — so equal maximal scores are always broken in favour of the
earlier entry, deterministically — with the intersection size as score and
the sorted intersection as the matched terms. -/
theorem c4_matcher_first_max (tokens : List String) (cats : List (String × List String))
    (h : 0 < max_overlap tokens cats) :
    ∃ c, List.find? (fun q => (setInter tokens q.2).length == max_overlap tokens cats) cats
          = some c ∧
      select_best (match_categories tokens cats) =
        ⟨some c.1, (setInter tokens c.2).length, sortStrings (setInter tokens c.2)⟩ ∧
      (setInter tokens c.2).length = max_overlap tokens cats :=
  select_best_aux_first_max tokens cats ⟨none, 0, []⟩ h

/-- Claim C4 witness: a two-category tie at score 1 on token "x"; the matcher
deterministically picks the earlier category "a". -/
theorem c4_matcher_first_max_witness :
    0 < max_overlap ["x"] [("a", ["x", "y"]), ("b", ["x", "z"])] ∧
    ∃ c, List.find?
          (fun q => (setInter ["x"] q.2).length ==
            max_overlap ["x"] [("a", ["x", "y"]), ("b", ["x", "z"])])
          [("a", ["x", "y"]), ("b", ["x", "z"])] = some c ∧
      select_best (match_categories ["x"] [("a", ["x", "y"]), ("b", ["x", "z"])]) =
        ⟨some c.1, (setInter ["x"] c.2).length, sortStrings (setInter ["x"] c.2)⟩ ∧
      (setInter ["x"] c.2).length = max_overlap ["x"] [("a", ["x", "y"]), ("b", ["x", "z"])] :=
  ⟨by decide, c4_matcher_first_max ["x"] [("a", ["x", "y"]), ("b", ["x", "z"])] (by decide)⟩

/-! ### Tokenizer output invariants (claim C10) -/

/-- Every token emitted by `_clean_tokens` escaped the final stopword check,
so no output token is in the effective stopword set. -/
theorem clean_tokens_not_stopword (stopwords : Finset String) (doc : List SpacyToken)
    (t : String) (ht : t ∈ cleanTokens doc stopwords) : t ∉ stopwords := by
  unfold cleanTokens at ht
  rw [List.mem_filterMap] at ht
  obtain ⟨tok, -, hf⟩ := ht
  unfold keepToken at hf
  by_cases hp : passesFilters stopwords tok
  · rw [if_pos hp] at hf
    by_cases hl : tokenLemma tok ∈ stopwords
    · rw [if_pos hl] at hf
      exact absurd hf (by simp)
    · rw [if_neg hl] at hf
      obtain rfl := Option.some.inj hf
      exact hl
  · rw [if_neg hp] at hf
    exact absurd hf (by simp)

/-- Claim C10 (amended).  No token produced by the Tokenizer belongs to the
effective stopword set; since "noite", "madrugada" and "dia" are stopword
extensions, the Time-Window Inferencer can never fire on those qualitative
terms.  (The digit guarantee of the original claim does NOT hold: the digit
filter inspects the raw surface form only, and the emitted lemma is checked
against stopwords alone, so a digit-bearing lemma can still reach the
inferencer — see the counterexample.) -/
theorem c10_amended_stopword_free (base : List String) (doc : List SpacyToken) (t : String)
    (ht : t ∈ cleanTokens doc (ensure_stopwords base)) :
    t ∉ ensure_stopwords base ∧ t ≠ "noite" ∧ t ≠ "madrugada" ∧ t ≠ "dia" := by
  have hns := clean_tokens_not_stopword _ doc t ht
  have hmem : ∀ w : String, w ∈ STOP_EXTRAS → w ∈ ensure_stopwords base := by
    intro w hw
    exact Finset.mem_union_right _ hw
  refine ⟨hns, ?_, ?_, ?_⟩ <;> rintro rfl
  · exact hns (hmem "noite" (by decide))
  · exact hns (hmem "madrugada" (by decide))
  · exact hns (hmem "dia" (by decide))

set_option maxRecDepth 8000 in
/-- Claim C10 counterexample.  The claim says no output token contains a
digit, hence the inferencer can never fire on an hour marker.  But the digit
filter applies to `token.text`, while the OUTPUT is `token.lemma_`: a token
whose surface form "amanhecer" is clean but whose model-proposed lemma is
"22h" passes every filter, the digit-bearing lemma is emitted, and the
Time-Window Inferencer fires on the "noite" hour marker. -/
theorem c10_claim_counterexample :
    cleanTokens [⟨"amanhecer", "22h", false, false, false⟩] (ensure_stopwords []) = ["22h"] ∧
    ("22h" : String).toList.any Char.isDigit = true ∧
    extract_time_windows ["22h"] = ["noite"] := by
  decide

set_option maxRecDepth 8000 in
/-- Claim C10 (amended) witness: a concrete clean token "festa" is emitted
and is not a stopword. -/
theorem c10_amended_witness :
    "festa" ∈ cleanTokens [⟨"Festa", "festa", false, false, false⟩] (ensure_stopwords []) ∧
    "festa" ∉ ensure_stopwords [] :=
  ⟨by decide,
   (c10_amended_stopword_free [] [⟨"Festa", "festa", false, false, false⟩] "festa"
      (by decide)).1⟩
